import Mathlib

/-!
Shallow embedding of the M19/M20 rider-management backend
(orders.service.js, income.service.js, data.store.js, income validators)
for checking the natural-language specification against the code.

Conventions of the embedding:
* JSON numbers (delivery fees, withdrawal amounts, running totals) are
  rationals (`ℚ`).
* ISO-8601 timestamps are integers: milliseconds since the Unix epoch.
  Two timestamps render to the same `YYYY-MM-DD` prefix of
  `Date.toISOString()` exactly when their floor-divisions by 86400000 agree
  (UTC calendar day), which is how the code's `startsWith(today)` tests are
  embedded.  `Math.floor` on a quotient is `Int.fdiv`.
* A JS value that may be `undefined`/`null` is an `Option`.
* `parseFloat(x.toFixed(2))` is `round2`: scale by 100, round half-up to an
  integer, scale back.
* File-backed state is passed explicitly; an operation that mutates the
  persisted document returns the new document.
-/

namespace Rider

/-- Milliseconds per UTC day, the divisor in the code's day arithmetic. -/
def msPerDay : Int := 86400000

/-- `7 * 24 * 60 * 60 * 1000`, the trailing-week window of `getRealTimeIncome`. -/
def msPerWeek : Int := 7 * msPerDay

/-- `30 * 24 * 60 * 60 * 1000`, the trailing-month window of `getRealTimeIncome`. -/
def msPerMonth : Int := 30 * msPerDay

/-- Floor of a rational, computed directly on the numerator/denominator so that
concrete instances evaluate by `decide` (for `q.den > 0`,
`⌊q⌋ = q.num.fdiv q.den`). -/
def ratFloor (q : ℚ) : Int := q.num.fdiv q.den

/-- `parseFloat(x.toFixed(2))`: round to 2 decimal places (half rounds up). -/
def round2 (q : ℚ) : ℚ := (ratFloor (q * 100 + 1 / 2) : ℚ) / 100

/-- The five order statuses of the data model. -/
inductive OrderStatus
  | assigned
  | pickedUp
  | inTransit
  | delivered
  | cancelled
deriving DecidableEq, Repr

/-- One delivery order of `rider.orders.json` (the fields the core logic
reads; free-text search fields are omitted).  `deliveryFee` is optional
because the code defends with `order.deliveryFee || 0`; the timestamps are
optional because the code guards them (`order.deliveredAt && ...`,
`order.deliveredAt || order.createdAt`). -/
structure Order where
  orderId : String
  status : OrderStatus
  deliveryFee : Option ℚ
  createdAt : Option Int
  deliveredAt : Option Int
deriving DecidableEq, Repr

/-- `order.deliveryFee || 0`. -/
def Order.fee (o : Order) : ℚ := o.deliveryFee.getD 0

/-- `order.deliveredAt || order.createdAt`: the effective date used by the
aggregations (`none` plays the role of JS `Invalid Date`, for which every
comparison in the code is false). -/
def Order.effDate (o : Order) : Option Int :=
  match o.deliveredAt with
  | some d => some d
  | none => o.createdAt

/-- Same UTC calendar day: embeds `isoString(a).startsWith(isoDate(b))`. -/
def sameDay (a b : Int) : Bool := a.fdiv msPerDay == b.fdiv msPerDay

/-- Withdrawal statuses. -/
inductive WithdrawalStatus
  | pending
  | completed
  | rejected
deriving DecidableEq, Repr

/-- One withdrawal record of `rider.income.json`. -/
structure Withdrawal where
  withdrawalId : String
  riderId : String
  amount : ℚ
  accountInfo : String
  status : WithdrawalStatus
  requestedAt : Int
  processedAt : Option Int
  notes : String
deriving DecidableEq, Repr

/-- The persisted income document (`rider.income.json`).  The stored
`availableBalance` field of the default document is carried but never read
by the computations, exactly as in the code. -/
structure IncomeData where
  riderId : String
  withdrawals : List Withdrawal
  totalWithdrawn : ℚ
  availableBalance : ℚ
  lastUpdated : Int
deriving DecidableEq, Repr

/-- The hardcoded demo rider identity (`this.riderId`). -/
def riderId : String := "rider_001"

/-- The default income document `getIncomeData` supplies to `dataStore.read`. -/
def defaultIncomeData (now : Int) : IncomeData :=
  { riderId := riderId
    withdrawals := []
    totalWithdrawn := 0
    availableBalance := 0
    lastUpdated := now }

/-- The derived real-time income snapshot returned by `getRealTimeIncome`. -/
structure IncomeSnapshot where
  riderId : String
  totalEarnings : ℚ
  todayEarnings : ℚ
  weekEarnings : ℚ
  monthEarnings : ℚ
  totalWithdrawn : ℚ
  availableBalance : ℚ
  pendingWithdrawals : Nat
  lastUpdated : Int
deriving DecidableEq, Repr

/-- Orders with `status === 'delivered'`. -/
def deliveredOrders (orders : List Order) : List Order :=
  orders.filter (fun o => o.status == .delivered)

/-- Raw lifetime earnings: the `totalEarnings` accumulator of the
`orders.forEach` loop in `getRealTimeIncome`. -/
def totalEarningsOf (orders : List Order) : ℚ :=
  ((deliveredOrders orders).map Order.fee).sum

/-- `order.deliveredAt && order.deliveredAt.startsWith(today)` (note: no
`createdAt` fallback on this particular test). -/
def Order.deliveredToday (o : Order) (now : Int) : Bool :=
  match o.deliveredAt with
  | some d => sameDay d now
  | none => false

/-- Raw today earnings accumulator of `getRealTimeIncome`. -/
def todayEarningsOf (orders : List Order) (now : Int) : ℚ :=
  (((deliveredOrders orders).filter (fun o => o.deliveredToday now)).map Order.fee).sum

/-- `orderDate >= now - win` on the effective date (false when the effective
date is absent, as for JS `Invalid Date`). -/
def Order.inWindow (o : Order) (now win : Int) : Bool :=
  match o.effDate with
  | some d => decide (now - win ≤ d)
  | none => false

/-- Raw trailing-window earnings accumulator (`weekEarnings`/`monthEarnings`). -/
def windowEarningsOf (orders : List Order) (now win : Int) : ℚ :=
  (((deliveredOrders orders).filter (fun o => o.inWindow now win)).map Order.fee).sum

/-- `getPendingWithdrawalsCount`. -/
def pendingWithdrawalsCount (income : IncomeData) : Nat :=
  (income.withdrawals.filter (fun w => w.status == .pending)).length

/-- `IncomeService.getRealTimeIncome`, as a function of the orders
collection, the income document and the clock reading `now`. -/
def getRealTimeIncome (orders : List Order) (income : IncomeData) (now : Int) :
    IncomeSnapshot :=
  let totalEarnings := totalEarningsOf orders
  { riderId := riderId
    totalEarnings := round2 totalEarnings
    todayEarnings := round2 (todayEarningsOf orders now)
    weekEarnings := round2 (windowEarningsOf orders now msPerWeek)
    monthEarnings := round2 (windowEarningsOf orders now msPerMonth)
    totalWithdrawn := round2 income.totalWithdrawn
    availableBalance := round2 (totalEarnings - income.totalWithdrawn)
    pendingWithdrawals := pendingWithdrawalsCount income
    lastUpdated := now }

/-- The error thrown by `submitWithdrawal` (`InvalidAmountError` for
`amount <= 0`, `InsufficientBalanceError` for `amount > availableBalance`). -/
inductive WithdrawError
  | invalidAmount
  | insufficientBalance
deriving DecidableEq, Repr

/-- The generated identifier `` `WD${Date.now()}` ``. -/
def wdId (now : Int) : String := "WD" ++ toString now

/-- The withdrawal record literal built by `submitWithdrawal`. -/
def mkPendingWithdrawal (now : Int) (amount : ℚ) (accountInfo : String) : Withdrawal :=
  { withdrawalId := wdId now
    riderId := riderId
    amount := round2 amount
    accountInfo := accountInfo
    status := .pending
    requestedAt := now
    processedAt := none
    notes := "" }

/-- `IncomeService.submitWithdrawal`.  The second component is the income
document as persisted after the call (unchanged on either failure: the code
throws before pushing or writing anything). -/
def submitWithdrawal (orders : List Order) (income : IncomeData) (now : Int)
    (amount : ℚ) (accountInfo : String) :
    Except WithdrawError Withdrawal × IncomeData :=
  let realTimeIncome := getRealTimeIncome orders income now
  if amount ≤ 0 then
    (.error .invalidAmount, income)
  else if realTimeIncome.availableBalance < amount then
    (.error .insufficientBalance, income)
  else
    let w := mkPendingWithdrawal now amount accountInfo
    (.ok w, { income with withdrawals := income.withdrawals ++ [w], lastUpdated := now })

/-- `findIndex` on `withdrawalId` followed by in-place mutation of the found
record: replaces the first record whose id matches, returning the updated
record and the updated list (`none` when `findIndex` yields `-1`). -/
def updateFirst (wid : String) (f : Withdrawal → Withdrawal) :
    List Withdrawal → Option (Withdrawal × List Withdrawal)
  | [] => none
  | w :: rest =>
    if w.withdrawalId == wid then some (f w, f w :: rest)
    else
      match updateFirst wid f rest with
      | none => none
      | some (u, rest') => some (u, w :: rest')

/-- `IncomeService.updateWithdrawalStatus` (the `resolveWithdrawal`
operation): sets `status`, `processedAt`, `notes` on the found withdrawal
unconditionally, and adds its amount to `totalWithdrawn` whenever the new
status is `completed`.  Returns the updated record and the persisted
document, or `none` when the id is unknown. -/
def updateWithdrawalStatus (income : IncomeData) (now : Int) (wid : String)
    (newStatus : WithdrawalStatus) (notes : String) :
    Option (Withdrawal × IncomeData) :=
  match updateFirst wid
      (fun w => { w with status := newStatus, processedAt := some now, notes := notes })
      income.withdrawals with
  | none => none
  | some (w, ws) =>
    some (w,
      { income with
        withdrawals := ws
        totalWithdrawn :=
          if newStatus == .completed then income.totalWithdrawn + w.amount
          else income.totalWithdrawn
        lastUpdated := now })

/-- Sum of `amount` over the `completed` withdrawals of a document (the
left-hand side of the spec's ledger invariant). -/
def sumCompleted (income : IncomeData) : ℚ :=
  ((income.withdrawals.filter (fun w => w.status == .completed)).map Withdrawal.amount).sum

/-! ### Weekly income trend (`getIncomeTrend('weekly')`) -/

/-- `getWeekIndex`: `Math.floor(Math.floor((now - date) / msPerDay) / 7)`. -/
def getWeekIndex (now date : Int) : Int := ((now - date).fdiv msPerDay).fdiv 7

/-- The week index of an order's effective date (`none` when both timestamps
are absent, i.e. JS `Invalid Date`, which the loop skips). -/
def Order.weekIdx (o : Order) (now : Int) : Option Int :=
  o.effDate.map (getWeekIndex now)

/-- The labels built by `getLast4Weeks`. -/
def getLast4Weeks : List String := ["Week 1", "Week 2", "Week 3", "Week 4"]

/-- The trend report (`{ period, labels, earnings, orderCounts }`). -/
structure TrendData where
  period : String
  labels : List String
  earnings : List ℚ
  orderCounts : List Nat
deriving DecidableEq, Repr

/-- The `earnings`/`orderCounts` accumulator arrays, embedded as
integer-indexed functions so that the code's negative-index writes
(`weekIndex <= -2` passes the `!== -1 && < 4` guard but only creates an
invisible non-element property in JS) are represented faithfully: the
output only ever reads indices 0..3. -/
def weeklyStep (now : Int) (acc : (Int → ℚ) × (Int → Nat)) (o : Order) :
    (Int → ℚ) × (Int → Nat) :=
  match o.weekIdx now with
  | some i =>
    if i ≠ -1 ∧ i < 4 then
      (Function.update acc.1 i (acc.1 i + o.fee),
       Function.update acc.2 i (acc.2 i + 1))
    else acc
  | none => acc

/-- The weekly branch of `IncomeService.getIncomeTrend`. -/
def getIncomeTrendWeekly (orders : List Order) (now : Int) : TrendData :=
  let acc := (deliveredOrders orders).foldl (weeklyStep now) (fun _ => 0, fun _ => 0)
  { period := "weekly"
    labels := getLast4Weeks
    earnings := [round2 (acc.1 0), round2 (acc.1 1), round2 (acc.1 2), round2 (acc.1 3)]
    orderCounts := [acc.2 0, acc.2 1, acc.2 2, acc.2 3] }

/-- Earnings of the delivered orders whose computed week index is `j`
(the per-bucket sum used to characterise the weekly trend). -/
def weekBucketSum (orders : List Order) (now : Int) (j : Int) : ℚ :=
  (((deliveredOrders orders).filter (fun o => o.weekIdx now == some j)).map Order.fee).sum

/-- Number of delivered orders whose computed week index is `j`. -/
def weekBucketCount (orders : List Order) (now : Int) (j : Int) : Nat :=
  ((deliveredOrders orders).filter (fun o => o.weekIdx now == some j)).length

/-! ### Order statistics (`OrdersService.getOrderStatistics`) -/

/-- The statistics record built by `getOrderStatistics`. -/
structure OrderStats where
  total : Nat
  ongoing : Nat
  completed : Nat
  cancelled : Nat
  totalEarnings : ℚ
  todayEarnings : ℚ
  todayOrders : Nat
deriving DecidableEq, Repr

/-- `['assigned', 'picked_up', 'in_transit'].includes(order.status)`. -/
def OrderStatus.isOngoing : OrderStatus → Bool
  | .assigned | .pickedUp | .inTransit => true
  | _ => false

/-- `(order.deliveredAt || order.createdAt)` exists and `startsWith(today)`. -/
def Order.effToday (o : Order) (now : Int) : Bool :=
  match o.effDate with
  | some d => sameDay d now
  | none => false

/-- One iteration of the `orders.forEach` loop in `getOrderStatistics`. -/
def statsStep (now : Int) (s : OrderStats) (o : Order) : OrderStats :=
  let s1 :=
    if o.status.isOngoing then { s with ongoing := s.ongoing + 1 }
    else if o.status == .delivered then
      { s with completed := s.completed + 1, totalEarnings := s.totalEarnings + o.fee }
    else if o.status == .cancelled then { s with cancelled := s.cancelled + 1 }
    else s
  if o.effToday now then
    let s2 := { s1 with todayOrders := s1.todayOrders + 1 }
    if o.status == .delivered then { s2 with todayEarnings := s2.todayEarnings + o.fee }
    else s2
  else s1

/-- `OrdersService.getOrderStatistics`: initialise with `total = orders.length`,
run the single pass, round the two money figures at the end. -/
def getOrderStatistics (orders : List Order) (now : Int) : OrderStats :=
  let s := orders.foldl (statsStep now)
    { total := orders.length, ongoing := 0, completed := 0, cancelled := 0
      totalEarnings := 0, todayEarnings := 0, todayOrders := 0 }
  { s with totalEarnings := round2 s.totalEarnings, todayEarnings := round2 s.todayEarnings }

/-- Delivered orders whose effective date falls on the current day. -/
def deliveredTodayEff (orders : List Order) (now : Int) : List Order :=
  (deliveredOrders orders).filter (fun o => o.effToday now)

/-! ### Data store (`data.store.js`) and the orders read path -/

/-- The on-disk condition of one backing JSON file: present with a parsed
document, absent (`fs.existsSync` false), or failing to read/parse (the
path that lands in `DataStore.read`'s `catch`). -/
inductive BackingFile (α : Type) where
  | present (doc : α)
  | missing
  | corrupt
deriving DecidableEq, Repr

/-- The orders document (`rider.orders.json`). -/
structure OrdersDoc where
  orders : List Order
deriving DecidableEq, Repr

/-- `DataStore.read(filename, defaultValue)` on a cold cache: a present file
yields its document; a missing file yields the default; a read/parse error
is caught and the default is returned (the error is logged, not rethrown). -/
def dataStoreRead {α : Type} (file : BackingFile α) (dflt : α) : α :=
  match file with
  | .present doc => doc
  | .missing => dflt
  | .corrupt => dflt

/-- `OrdersService.getAllOrders` (`listAll`): `dataStore.read` with default
`{ orders: [] }`, then `data.orders || []`. -/
def getAllOrders (file : BackingFile OrdersDoc) : List Order :=
  (dataStoreRead file { orders := [] }).orders

/-- `StorageError` of the spec's error taxonomy. -/
inductive StorageError
  | unreadable
deriving DecidableEq, Repr

/-- Modelled from the spec: `listAll` as §4.1 words it — "No failure modes
beyond storage unavailability (propagated, not swallowed, except that a
missing backing store yields an empty sequence by design default)".  Used
only to compare the spec's claimed failure semantics with the code's. -/
def specListAll (file : BackingFile OrdersDoc) : Except StorageError (List Order) :=
  match file with
  | .present doc => .ok doc.orders
  | .missing => .ok []
  | .corrupt => .error .unreadable

/-! ### The shared in-memory cache and `getRecentOrders` (C10) -/

/-- The `DataStore` as seen by the orders service: the backing file plus the
per-process whole-document cache (`this.cache[filename]`). -/
structure StoreState where
  file : BackingFile OrdersDoc
  cache : Option OrdersDoc
deriving DecidableEq, Repr

/-- `DataStore.read` with the cache: a cache hit returns the cached document
itself (a shared reference in JS); a miss on a present file caches the
parsed document and returns that same object; a missing or corrupt file
returns the default without caching it. -/
def readOrdersDoc (s : StoreState) : OrdersDoc × StoreState :=
  match s.cache with
  | some doc => (doc, s)
  | none =>
    match s.file with
    | .present doc => (doc, { s with cache := some doc })
    | .missing => ({ orders := [] }, s)
    | .corrupt => ({ orders := [] }, s)

/-- `getAllOrders` against the cached store, returning the observed list and
the store state after the read. -/
def getAllOrdersS (s : StoreState) : List Order × StoreState :=
  let (doc, s') := readOrdersDoc s
  (doc.orders, s')

/-- Sort key: `new Date(order.createdAt).getTime()`. -/
def createdKey (o : Order) : Int := o.createdAt.getD 0

/-- The comparator `(a, b) => new Date(b.createdAt) - new Date(a.createdAt)`:
`a` sorts no later than `b` when its key is no smaller. -/
def recentLE (a b : Order) : Prop := createdKey b ≤ createdKey a

instance : DecidableRel recentLE := fun a b =>
  inferInstanceAs (Decidable (createdKey b ≤ createdKey a))

instance : IsTotal Order recentLE := ⟨fun a b => le_total (createdKey b) (createdKey a)⟩

instance : IsTrans Order recentLE :=
  ⟨fun _ _ _ hab hbc => le_trans hbc hab⟩

/-- `Array.prototype.sort` with the descending-`createdAt` comparator,
embedded as a stable sort (ES2019 sorts are stable). -/
def sortByCreatedDesc (l : List Order) : List Order := l.insertionSort recentLE

/-- `OrdersService.getRecentOrders(limit)`: reads the orders (possibly from
the cache), sorts the array **in place** — when the array came from the
cache, the cached document now holds the sorted array — and returns the
first `limit` entries.  No `dataStore.write` happens, so only the cache,
not the file, observes the reordering. -/
def getRecentOrders (s : StoreState) (limit : Nat) : List Order × StoreState :=
  match s.cache with
  | some doc =>
    let sorted := sortByCreatedDesc doc.orders
    (sorted.take limit, { s with cache := some { orders := sorted } })
  | none =>
    match s.file with
    | .present doc =>
      let sorted := sortByCreatedDesc doc.orders
      (sorted.take limit, { s with cache := some { orders := sorted } })
    | .missing => ([], s)
    | .corrupt => ([], s)

/-! ### Service state for the read path (C7) -/

/-- The state a service call can touch: the two persisted documents plus the
append-only KPI log (`kpiService` CSV). -/
structure ServiceState where
  orders : List Order
  income : IncomeData
  kpiLog : List String
deriving DecidableEq, Repr

/-- `kpiService.logIncomeAction`: appends one CSV line (modelled by its
action tag). -/
def logIncomeAction (s : ServiceState) (action : String) : ServiceState :=
  { s with kpiLog := s.kpiLog ++ [action] }

/-- `getRealTimeIncome` as the service call actually runs: computes the
snapshot from the two documents and appends a KPI-log line; it writes
neither document. -/
def getRealTimeIncomeRun (s : ServiceState) (now : Int) :
    IncomeSnapshot × ServiceState :=
  (getRealTimeIncome s.orders s.income now,
   logIncomeAction s "VIEW_REALTIME_INCOME")

/-! ### The boundary validator (`validateWithdrawalRequest`) -/

/-- The distinct 400-responses of `validateWithdrawalRequest`. -/
inductive ValidationError
  | missingAmount
  | nonPositive
  | tooManyDecimals
  | amountTooLow
  | amountTooHigh
deriving DecidableEq, Repr

/-- `isValidDecimalPlaces(num, 2)`: the number is expressible with at most
two fractional decimal digits (embedded arithmetically: `100 * num` is an
integer). -/
def hasAtMost2Decimals (q : ℚ) : Bool := (q * 100).den == 1

/-- `validateWithdrawalRequest`, on the parsed `amount` field of the body
(`none` embeds an absent amount; the JS `isNaN`/typeof checks are subsumed
by the `ℚ` typing).  Returns the normalised amount
(`parseFloat(numericAmount.toFixed(2))`) on success. -/
def validateWithdrawalRequest (amount : Option ℚ) : Except ValidationError ℚ :=
  match amount with
  | none => .error .missingAmount
  | some q =>
    if q ≤ 0 then .error .nonPositive
    else if ¬ hasAtMost2Decimals q then .error .tooManyDecimals
    else if q < 10 then .error .amountTooLow
    else if 10000 < q then .error .amountTooHigh
    else .ok (round2 q)

/-! ## Helper lemmas about rounding -/

theorem ratFloor_eq_floor (q : ℚ) : ratFloor q = ⌊q⌋ := by
  rw [Rat.floor_def, ratFloor, Int.fdiv_eq_ediv _ (by positivity)]

theorem round2_eq (q : ℚ) : round2 q = (⌊q * 100 + 1 / 2⌋ : ℚ) / 100 := by
  rw [round2, ratFloor_eq_floor]

/-- `round2` fixes every value expressible in cents. -/
theorem round2_hundredth (k : ℤ) : round2 ((k : ℚ) / 100) = (k : ℚ) / 100 := by
  rw [round2_eq]
  have h1 : (k : ℚ) / 100 * 100 + 1 / 2 = 1 / 2 + (k : ℚ) := by
    rw [div_mul_cancel₀ _ (by norm_num : (100 : ℚ) ≠ 0)]; ring
  have h2 : ⌊(1 / 2 : ℚ)⌋ = 0 := by
    rw [Int.floor_eq_zero_iff]; constructor <;> norm_num
  rw [h1, Int.floor_add_int, h2]
  norm_num

/-! ## C1: availableBalance versus rounded totalEarnings and totalWithdrawn -/

/-- Orders collection of the C1 counterexample: one delivered order whose fee
carries a sub-cent fraction. -/
def c1Orders : List Order :=
  [{ orderId := "O1", status := .delivered, deliveryFee := some (14 / 1000)
     createdAt := some 0, deliveredAt := some 0 }]

/-- Income document of the C1 counterexample: a sub-cent running total. -/
def c1Income : IncomeData :=
  { riderId := riderId, withdrawals := [], totalWithdrawn := 6 / 1000
    availableBalance := 0, lastUpdated := 0 }

/-- C1 fails as stated: with raw totals 0.014 and 0.006 the snapshot rounds
`availableBalance` to 0.01 while `totalEarnings - totalWithdrawn` on the
rounded fields is 0.01 - 0.01 = 0. -/
theorem c1_counterexample :
    ¬ ((getRealTimeIncome c1Orders c1Income 0).availableBalance
        = (getRealTimeIncome c1Orders c1Income 0).totalEarnings
          - (getRealTimeIncome c1Orders c1Income 0).totalWithdrawn) := by
  simp only [getRealTimeIncome, c1Orders, c1Income, totalEarningsOf, deliveredOrders,
    Order.fee, round2_eq, List.filter, List.map]
  norm_num

/-- C1 (amended): whenever the lifetime delivered earnings and the persisted
`totalWithdrawn` are whole numbers of cents — as they are for 2-decimal money
values — the snapshot returned by `getRealTimeIncome` satisfies
`availableBalance == totalEarnings - totalWithdrawn` between its rounded
output fields. -/
theorem c1_availableBalance_rounded (orders : List Order) (income : IncomeData)
    (now : Int) (a b : ℤ)
    (hte : totalEarningsOf orders = (a : ℚ) / 100)
    (htw : income.totalWithdrawn = (b : ℚ) / 100) :
    (getRealTimeIncome orders income now).availableBalance
      = (getRealTimeIncome orders income now).totalEarnings
        - (getRealTimeIncome orders income now).totalWithdrawn := by
  simp only [getRealTimeIncome, hte, htw]
  have h1 : (a : ℚ) / 100 - (b : ℚ) / 100 = ((a - b : ℤ) : ℚ) / 100 := by
    push_cast; ring
  rw [h1, round2_hundredth, round2_hundredth, round2_hundredth]
  push_cast; ring

/-- Orders collection of the C1 witness (fee 15.50). -/
def c1wOrders : List Order :=
  [{ orderId := "O1", status := .delivered, deliveryFee := some (1550 / 100)
     createdAt := some 0, deliveredAt := some 0 }]

/-- Income document of the C1 witness (3.25 withdrawn). -/
def c1wIncome : IncomeData :=
  { riderId := riderId, withdrawals := [], totalWithdrawn := 325 / 100
    availableBalance := 0, lastUpdated := 0 }

theorem c1_availableBalance_rounded_witness :
    totalEarningsOf c1wOrders = ((1550 : ℤ) : ℚ) / 100
    ∧ c1wIncome.totalWithdrawn = ((325 : ℤ) : ℚ) / 100
    ∧ (getRealTimeIncome c1wOrders c1wIncome 0).availableBalance
        = (getRealTimeIncome c1wOrders c1wIncome 0).totalEarnings
          - (getRealTimeIncome c1wOrders c1wIncome 0).totalWithdrawn := by
  have h1 : totalEarningsOf c1wOrders = ((1550 : ℤ) : ℚ) / 100 := by
    simp only [totalEarningsOf, deliveredOrders, c1wOrders, Order.fee,
      List.filter, List.map]
    norm_num
  have h2 : c1wIncome.totalWithdrawn = ((325 : ℤ) : ℚ) / 100 := by
    simp only [c1wIncome]; norm_num
  exact ⟨h1, h2, c1_availableBalance_rounded c1wOrders c1wIncome 0 1550 325 h1 h2⟩

/-! ## C2: the ledger invariant is not preserved by `updateWithdrawalStatus` -/

/-- A consistent income document: one completed withdrawal of 50, running
total 50. -/
def c2Income : IncomeData :=
  { riderId := riderId
    withdrawals :=
      [{ withdrawalId := "WD1", riderId := riderId, amount := 50, accountInfo := "acct"
         status := .completed, requestedAt := 0, processedAt := some 1000, notes := "" }]
    totalWithdrawn := 50, availableBalance := 0, lastUpdated := 1000 }

/-- The record `updateWithdrawalStatus c2Income 2000 "WD1" rejected` returns. -/
def c2After : Withdrawal :=
  { withdrawalId := "WD1", riderId := riderId, amount := 50, accountInfo := "acct"
    status := .rejected, requestedAt := 0, processedAt := some 2000, notes := "late" }

/-- The document it persists: the withdrawal is now rejected but the running
total still counts its 50. -/
def c2AfterDoc : IncomeData :=
  { riderId := riderId, withdrawals := [c2After]
    totalWithdrawn := 50, availableBalance := 0, lastUpdated := 2000 }

/-- C2 fails on the code: starting from a document satisfying the ledger
invariant (`sum of completed amounts = totalWithdrawn`), resolving the
already-completed withdrawal to `rejected` is accepted and leaves a document
with completed-sum 0 but `totalWithdrawn` 50. -/
theorem c2_invariant_violated :
    sumCompleted c2Income = c2Income.totalWithdrawn
    ∧ updateWithdrawalStatus c2Income 2000 "WD1" .rejected "late" = some (c2After, c2AfterDoc)
    ∧ sumCompleted c2AfterDoc ≠ c2AfterDoc.totalWithdrawn := by
  refine ⟨?_, ?_, ?_⟩
  · simp only [sumCompleted, c2Income, List.filter, List.map]
    norm_num
  · simp only [updateWithdrawalStatus, updateFirst, c2Income, c2After, c2AfterDoc]
    norm_num
    decide
  · simp only [sumCompleted, c2AfterDoc, c2After, List.filter, List.map]
    norm_num

/-! ## C3: a completed withdrawal is not terminal in the code -/

/-- An income document with one already-completed withdrawal of 50. -/
def c3Income : IncomeData :=
  { riderId := riderId
    withdrawals :=
      [{ withdrawalId := "WD1", riderId := riderId, amount := 50, accountInfo := "acct"
         status := .completed, requestedAt := 0, processedAt := some 1000, notes := "" }]
    totalWithdrawn := 50, availableBalance := 0, lastUpdated := 1000 }

/-- The withdrawal after re-completing it: a fresh `processedAt` stamp. -/
def c3After : Withdrawal :=
  { withdrawalId := "WD1", riderId := riderId, amount := 50, accountInfo := "acct"
    status := .completed, requestedAt := 0, processedAt := some 2000, notes := "again" }

/-- The persisted document after re-completing: `totalWithdrawn` was
incremented a second time. -/
def c3AfterDoc : IncomeData :=
  { riderId := riderId, withdrawals := [c3After]
    totalWithdrawn := 100, availableBalance := 0, lastUpdated := 2000 }

/-- C3 fails on the code: `updateWithdrawalStatus` on an already-completed
withdrawal does not fail — it succeeds, stamps a new `processedAt`, and adds
the amount to `totalWithdrawn` a second time (50 becomes 100). -/
theorem c3_completed_retransition :
    updateWithdrawalStatus c3Income 2000 "WD1" .completed "again"
      = some (c3After, c3AfterDoc) := by
  simp only [updateWithdrawalStatus, updateFirst, c3Income, c3After, c3AfterDoc]
  norm_num

/-! ## C4: `submitWithdrawal` validation, atomicity on failure, success shape -/

/-- C4: `submitWithdrawal` fails with the invalid-amount error on
`amount <= 0` and with the insufficient-balance error when the amount
exceeds the `availableBalance` of the snapshot computed at the instant of
the call, leaving the persisted document untouched in both cases; on
success it appends exactly one new `pending` withdrawal carrying the
generated id `WD<now>` and `requestedAt = now`, returns it, and leaves
`totalWithdrawn` unchanged; the appended id is unique whenever the
generated id is fresh. -/
theorem c4_submitWithdrawal_spec (orders : List Order) (income : IncomeData)
    (now : Int) (amount : ℚ) (acct : String) :
    (amount ≤ 0 →
       submitWithdrawal orders income now amount acct = (.error .invalidAmount, income))
    ∧ (0 < amount → (getRealTimeIncome orders income now).availableBalance < amount →
       submitWithdrawal orders income now amount acct = (.error .insufficientBalance, income))
    ∧ (0 < amount → amount ≤ (getRealTimeIncome orders income now).availableBalance →
       ∃ w, submitWithdrawal orders income now amount acct
             = (.ok w, { income with withdrawals := income.withdrawals ++ [w], lastUpdated := now })
          ∧ w.status = .pending ∧ w.requestedAt = now ∧ w.withdrawalId = wdId now
          ∧ w.amount = round2 amount
          ∧ (submitWithdrawal orders income now amount acct).2.totalWithdrawn
              = income.totalWithdrawn
          ∧ ((∀ w' ∈ income.withdrawals, w'.withdrawalId ≠ wdId now) →
               ((income.withdrawals ++ [w]).filter
                   (fun x => x.withdrawalId == wdId now)).length = 1)) := by
  refine ⟨?_, ?_, ?_⟩
  · intro h
    simp only [submitWithdrawal]
    rw [if_pos h]
  · intro h0 hlt
    simp only [submitWithdrawal]
    rw [if_neg (not_le.mpr h0), if_pos hlt]
  · intro h0 hle
    have hok : submitWithdrawal orders income now amount acct
        = (.ok (mkPendingWithdrawal now amount acct),
           { income with
             withdrawals := income.withdrawals ++ [mkPendingWithdrawal now amount acct]
             lastUpdated := now }) := by
      simp only [submitWithdrawal]
      rw [if_neg (not_le.mpr h0), if_neg (not_lt.mpr hle)]
    refine ⟨mkPendingWithdrawal now amount acct, hok, rfl, rfl, rfl, rfl, by rw [hok], ?_⟩
    intro hfresh
    rw [List.filter_append]
    have h1 : income.withdrawals.filter (fun x => x.withdrawalId == wdId now) = [] := by
      rw [List.filter_eq_nil_iff]
      intro a ha
      simpa using hfresh a ha
    have h2 : [mkPendingWithdrawal now amount acct].filter
        (fun x => x.withdrawalId == wdId now) = [mkPendingWithdrawal now amount acct] := by
      simp [mkPendingWithdrawal]
    rw [h1, h2]
    rfl

/-- Orders of the C4 witness: one delivered order worth 100. -/
def c4Orders : List Order :=
  [{ orderId := "O1", status := .delivered, deliveryFee := some 100
     createdAt := some 0, deliveredAt := some 0 }]

/-- Income document of the C4 witness: nothing withdrawn yet. -/
def c4Income : IncomeData := defaultIncomeData 0

theorem c4_submitWithdrawal_spec_witness :
    ((0 : ℚ) ≤ 0
      ∧ submitWithdrawal c4Orders c4Income 5 0 "acct" = (.error .invalidAmount, c4Income))
    ∧ ((0 : ℚ) < 200 ∧ (getRealTimeIncome c4Orders c4Income 5).availableBalance < 200
      ∧ submitWithdrawal c4Orders c4Income 5 200 "acct"
          = (.error .insufficientBalance, c4Income))
    ∧ ((0 : ℚ) < 50 ∧ 50 ≤ (getRealTimeIncome c4Orders c4Income 5).availableBalance
      ∧ ∃ w, submitWithdrawal c4Orders c4Income 5 50 "acct"
             = (.ok w, { c4Income with
                         withdrawals := c4Income.withdrawals ++ [w], lastUpdated := 5 })
          ∧ w.status = .pending ∧ w.requestedAt = 5 ∧ w.withdrawalId = wdId 5
          ∧ w.amount = round2 50
          ∧ (submitWithdrawal c4Orders c4Income 5 50 "acct").2.totalWithdrawn
              = c4Income.totalWithdrawn
          ∧ ((∀ w' ∈ c4Income.withdrawals, w'.withdrawalId ≠ wdId 5) →
               ((c4Income.withdrawals ++ [w]).filter
                   (fun x => x.withdrawalId == wdId 5)).length = 1)) := by
  have hbal : (getRealTimeIncome c4Orders c4Income 5).availableBalance = 100 := by
    simp only [getRealTimeIncome, c4Orders, c4Income, defaultIncomeData, totalEarningsOf,
      deliveredOrders, Order.fee, round2_eq, List.filter, List.map]
    norm_num
  refine ⟨⟨le_refl 0, (c4_submitWithdrawal_spec c4Orders c4Income 5 0 "acct").1 (le_refl 0)⟩,
    ⟨by norm_num, by rw [hbal]; norm_num, ?_⟩, ⟨by norm_num, by rw [hbal]; norm_num, ?_⟩⟩
  · exact (c4_submitWithdrawal_spec c4Orders c4Income 5 200 "acct").2.1 (by norm_num)
      (by rw [hbal]; norm_num)
  · exact (c4_submitWithdrawal_spec c4Orders c4Income 5 50 "acct").2.2 (by norm_num)
      (by rw [hbal]; norm_num)

/-! ## C5: weekly trend bucket placement -/

/-- Reading bucket `j` (for `0 ≤ j < 4`) after the weekly accumulation loop:
the earnings cell holds its initial value plus the fees of the orders whose
week index is exactly `j`, and the count cell likewise. -/
theorem weekly_foldl_apply (now : Int) (j : Int) (h0 : 0 ≤ j) (h4 : j < 4) :
    ∀ (l : List Order) (f : Int → ℚ) (g : Int → Nat),
      (l.foldl (weeklyStep now) (f, g)).1 j
          = f j + ((l.filter (fun o => o.weekIdx now == some j)).map Order.fee).sum
      ∧ (l.foldl (weeklyStep now) (f, g)).2 j
          = g j + (l.filter (fun o => o.weekIdx now == some j)).length := by
  intro l
  induction l with
  | nil => intro f g; simp
  | cons o l ih =>
    intro f g
    rcases ho : o.weekIdx now with _ | i
    · have hstep : weeklyStep now (f, g) o = (f, g) := by
        simp [weeklyStep, ho]
      have hfilter : (o :: l).filter (fun o => o.weekIdx now == some j)
          = l.filter (fun o => o.weekIdx now == some j) := by
        simp [List.filter, ho]
      simp only [List.foldl_cons, hstep, hfilter]
      exact ih f g
    · by_cases hij : i = j
      · subst hij
        have hguard : i ≠ -1 ∧ i < 4 := ⟨by omega, h4⟩
        have hstep : weeklyStep now (f, g) o
            = (Function.update f i (f i + o.fee), Function.update g i (g i + 1)) := by
          simp [weeklyStep, ho, hguard]
        have hfilter : (o :: l).filter (fun o => o.weekIdx now == some i)
            = o :: l.filter (fun o => o.weekIdx now == some i) := by
          simp [List.filter, ho]
        simp only [List.foldl_cons, hstep, hfilter]
        obtain ⟨ihf, ihg⟩ := ih (Function.update f i (f i + o.fee)) (Function.update g i (g i + 1))
        constructor
        · rw [ihf, Function.update_same]
          simp only [List.map_cons, List.sum_cons]
          ring
        · rw [ihg, Function.update_same]
          simp only [List.length_cons]
          omega
      · have hb : (i == j) = false := beq_eq_false_iff_ne.mpr hij
        have hfilter : (o :: l).filter (fun o => o.weekIdx now == some j)
            = l.filter (fun o => o.weekIdx now == some j) := by
          simp [List.filter, ho, hb]
        by_cases hguard : i ≠ -1 ∧ i < 4
        · have hstep : weeklyStep now (f, g) o
              = (Function.update f i (f i + o.fee), Function.update g i (g i + 1)) := by
            simp [weeklyStep, ho, hguard]
          simp only [List.foldl_cons, hstep, hfilter]
          obtain ⟨ihf, ihg⟩ :=
            ih (Function.update f i (f i + o.fee)) (Function.update g i (g i + 1))
          rw [ihf, ihg, Function.update_noteq (Ne.symm hij), Function.update_noteq (Ne.symm hij)]
          exact ⟨rfl, rfl⟩
        · have hstep : weeklyStep now (f, g) o = (f, g) := by
            simp only [weeklyStep, ho]
            rw [if_neg hguard]
          simp only [List.foldl_cons, hstep, hfilter]
          exact ih f g

/-- C5 (amended): `getIncomeTrend('weekly')` produces 4 buckets labeled
"Week 1".."Week 4"; a delivered order with
`weekIndex = floor(floor((now - effectiveDate)/1day)/7)` in [0,3] is
accumulated into array position `weekIndex` itself — so index 0, the most
recent week, lands in the *first* label slot "Week 1", the chronological
reversal the code exhibits — and orders whose index falls outside [0,3] are
excluded without error. -/
theorem c5_weekly_buckets (orders : List Order) (now : Int) :
    (getIncomeTrendWeekly orders now).labels = ["Week 1", "Week 2", "Week 3", "Week 4"]
    ∧ (getIncomeTrendWeekly orders now).earnings
        = [round2 (weekBucketSum orders now 0), round2 (weekBucketSum orders now 1),
           round2 (weekBucketSum orders now 2), round2 (weekBucketSum orders now 3)]
    ∧ (getIncomeTrendWeekly orders now).orderCounts
        = [weekBucketCount orders now 0, weekBucketCount orders now 1,
           weekBucketCount orders now 2, weekBucketCount orders now 3] := by
  refine ⟨rfl, ?_, ?_⟩
  · simp only [getIncomeTrendWeekly, weekBucketSum]
    rw [(weekly_foldl_apply now 0 (by norm_num) (by norm_num) (deliveredOrders orders)
          (fun _ => 0) (fun _ => 0)).1,
        (weekly_foldl_apply now 1 (by norm_num) (by norm_num) (deliveredOrders orders)
          (fun _ => 0) (fun _ => 0)).1,
        (weekly_foldl_apply now 2 (by norm_num) (by norm_num) (deliveredOrders orders)
          (fun _ => 0) (fun _ => 0)).1,
        (weekly_foldl_apply now 3 (by norm_num) (by norm_num) (deliveredOrders orders)
          (fun _ => 0) (fun _ => 0)).1]
    norm_num
  · simp only [getIncomeTrendWeekly, weekBucketCount]
    rw [(weekly_foldl_apply now 0 (by norm_num) (by norm_num) (deliveredOrders orders)
          (fun _ => 0) (fun _ => 0)).2,
        (weekly_foldl_apply now 1 (by norm_num) (by norm_num) (deliveredOrders orders)
          (fun _ => 0) (fun _ => 0)).2,
        (weekly_foldl_apply now 2 (by norm_num) (by norm_num) (deliveredOrders orders)
          (fun _ => 0) (fun _ => 0)).2,
        (weekly_foldl_apply now 3 (by norm_num) (by norm_num) (deliveredOrders orders)
          (fun _ => 0) (fun _ => 0)).2]
    norm_num

/-- Orders of the C5 counterexample: a single order delivered at `now`
itself, so its week index is 0 (the most recent week). -/
def c5Orders : List Order :=
  [{ orderId := "O1", status := .delivered, deliveryFee := some 10
     createdAt := some 0, deliveredAt := some 0 }]

/-- C5 fails as stated: the order with week index 0 is accumulated into
array position 0 (label "Week 1", the oldest slot), not into position
`3 - 0 = 3` as the claim requires. -/
theorem c5_counterexample :
    (getIncomeTrendWeekly c5Orders 0).earnings = [10, 0, 0, 0]
    ∧ (getIncomeTrendWeekly c5Orders 0).earnings ≠ [0, 0, 0, 10] := by
  have hw : getWeekIndex 0 0 = 0 := by decide
  have h : (getIncomeTrendWeekly c5Orders 0).earnings = [10, 0, 0, 0] := by
    simp only [getIncomeTrendWeekly, deliveredOrders, c5Orders, weeklyStep, Order.weekIdx,
      Order.effDate, Option.map_some', hw, Order.fee, round2_eq, List.filter, List.foldl,
      Function.update]
    norm_num
  exact ⟨h, by rw [h]; simp⟩

/-! ## C6: `getOrderStatistics` -/

/-- What the single pass of `getOrderStatistics` accumulates, characterised
by filters and counts over the whole collection. -/
theorem stats_foldl (now : Int) :
    ∀ (l : List Order) (s : OrderStats),
      l.foldl (statsStep now) s =
        { total := s.total
          ongoing := s.ongoing + l.countP (fun o => o.status.isOngoing)
          completed := s.completed + l.countP (fun o => o.status == .delivered)
          cancelled := s.cancelled + l.countP (fun o => o.status == .cancelled)
          totalEarnings := s.totalEarnings
            + ((l.filter (fun o => o.status == .delivered)).map Order.fee).sum
          todayEarnings := s.todayEarnings
            + ((l.filter (fun o => o.status == .delivered && o.effToday now)).map
                Order.fee).sum
          todayOrders := s.todayOrders + l.countP (fun o => o.effToday now) } := by
  intro l
  induction l with
  | nil => intro s; simp
  | cons o l ih =>
    intro s
    rw [List.foldl_cons, ih]
    rcases hstat : o.status <;> by_cases htoday : o.effToday now <;>
      simp [statsStep, OrderStatus.isOngoing, hstat, htoday, List.countP_cons,
        List.filter_cons, beq_iff_eq] <;>
      (repeat' apply And.intro) <;> first | rfl | omega | ring

/-- The clock of the §8 scenario: exactly ten days after the epoch. -/
def c6Now : Int := 864000000

/-- The §8 scenario orders: O1 delivered 15.00 today, O2 delivered 8.50 ten
days ago, O3 cancelled 5.00 with no timestamps at all. -/
def c6Orders : List Order :=
  [{ orderId := "O1", status := .delivered, deliveryFee := some 15
     createdAt := some c6Now, deliveredAt := some c6Now },
   { orderId := "O2", status := .delivered, deliveryFee := some (17 / 2)
     createdAt := some 0, deliveredAt := some 0 },
   { orderId := "O3", status := .cancelled, deliveryFee := some 5
     createdAt := none, deliveredAt := none }]

/-- C6 (amended): `getOrderStatistics` returns, in a single pass, the total
order count, the ongoing/completed/cancelled counts by status,
`totalEarnings` as the rounded fee sum over delivered orders, and
`todayEarnings`/`todayOrders` restricted to the current calendar day of the
effective date; on the §8 scenario (orders O1 delivered 15.00 today, O2
delivered 8.50 ten days ago, O3 cancelled 5.00 with no dates) it yields
`{total: 3, ongoing: 0, completed: 2, cancelled: 1, totalEarnings: 23.50,
todayEarnings: 15.00, todayOrders: 1}` — both delivered orders count as
completed, so `completed` is 2, not the claimed 1. -/
theorem c6_statistics :
    (∀ (orders : List Order) (now : Int),
      getOrderStatistics orders now =
        { total := orders.length
          ongoing := orders.countP (fun o => o.status.isOngoing)
          completed := orders.countP (fun o => o.status == .delivered)
          cancelled := orders.countP (fun o => o.status == .cancelled)
          totalEarnings :=
            round2 (((orders.filter (fun o => o.status == .delivered)).map Order.fee).sum)
          todayEarnings :=
            round2 (((orders.filter
                (fun o => o.status == .delivered && o.effToday now)).map Order.fee).sum)
          todayOrders := orders.countP (fun o => o.effToday now) })
    ∧ getOrderStatistics c6Orders c6Now
        = { total := 3, ongoing := 0, completed := 2, cancelled := 1
            totalEarnings := 47 / 2, todayEarnings := 15, todayOrders := 1 } := by
  have hgen : ∀ (orders : List Order) (now : Int),
      getOrderStatistics orders now =
        { total := orders.length
          ongoing := orders.countP (fun o => o.status.isOngoing)
          completed := orders.countP (fun o => o.status == .delivered)
          cancelled := orders.countP (fun o => o.status == .cancelled)
          totalEarnings :=
            round2 (((orders.filter (fun o => o.status == .delivered)).map Order.fee).sum)
          todayEarnings :=
            round2 (((orders.filter
                (fun o => o.status == .delivered && o.effToday now)).map Order.fee).sum)
          todayOrders := orders.countP (fun o => o.effToday now) } := by
    intro orders now
    simp only [getOrderStatistics, stats_foldl now orders]
    norm_num
  refine ⟨hgen, ?_⟩
  rw [hgen]
  have hs1 : Order.effToday
      { orderId := "O1", status := .delivered, deliveryFee := some 15
        createdAt := some c6Now, deliveredAt := some c6Now } c6Now = true := by
    decide
  have hs2 : Order.effToday
      { orderId := "O2", status := .delivered, deliveryFee := some (17 / 2)
        createdAt := some 0, deliveredAt := some 0 } c6Now = false := by
    decide
  have hs3 : Order.effToday
      { orderId := "O3", status := .cancelled, deliveryFee := some 5
        createdAt := none, deliveredAt := none } c6Now = false := by
    decide
  simp [c6Orders, List.countP_cons, List.countP_nil, List.filter_cons, List.filter_nil,
    List.length_cons, List.length_nil, hs1, hs2, hs3, OrderStatus.isOngoing, Order.fee,
    round2_eq, beq_iff_eq]
  norm_num

/-- C6 fails as stated on its own scenario: the `completed` count is 2
(both delivered orders), not 1. -/
theorem c6_counterexample :
    (getOrderStatistics c6Orders c6Now).completed = 2
    ∧ getOrderStatistics c6Orders c6Now
        ≠ { total := 3, ongoing := 0, completed := 1, cancelled := 1
            totalEarnings := 47 / 2, todayEarnings := 15, todayOrders := 1 } := by
  have hc : (getOrderStatistics c6Orders c6Now).completed = 2 := by
    simp only [getOrderStatistics, stats_foldl c6Now c6Orders, c6Orders, List.countP_cons,
      List.countP_nil]
    decide
  refine ⟨hc, fun h => ?_⟩
  rw [h] at hc
  simp at hc

/-! ## C7: idempotence of the `getRealTimeIncome` read path -/

/-- C7 (amended): the `getRealTimeIncome` call writes neither the orders
collection nor the income document (only the KPI log grows), and the
snapshot does not depend on the log — so a second call with no intervening
mutation, observing the same clock reading, returns a snapshot identical in
every field. -/
theorem c7_idempotent_same_clock (s : ServiceState) (now : Int) :
    ((getRealTimeIncomeRun s now).2).orders = s.orders
    ∧ ((getRealTimeIncomeRun s now).2).income = s.income
    ∧ ((getRealTimeIncomeRun s now).2).kpiLog = s.kpiLog ++ ["VIEW_REALTIME_INCOME"]
    ∧ (getRealTimeIncomeRun ((getRealTimeIncomeRun s now).2) now).1
        = (getRealTimeIncomeRun s now).1 :=
  ⟨rfl, rfl, rfl, rfl⟩

/-- Service state of the C7 counterexample: empty collections. -/
def c7State : ServiceState :=
  { orders := [], income := defaultIncomeData 0, kpiLog := [] }

/-- C7 fails as stated: two calls with no intervening mutation but made one
minute apart return snapshots that differ — in the `lastUpdated` field,
which records each call's wall clock. -/
theorem c7_counterexample :
    (getRealTimeIncomeRun ((getRealTimeIncomeRun c7State 0).2) 60000).1
        ≠ (getRealTimeIncomeRun c7State 0).1
    ∧ ((getRealTimeIncomeRun ((getRealTimeIncomeRun c7State 0).2) 60000).1).lastUpdated = 60000
    ∧ ((getRealTimeIncomeRun c7State 0).1).lastUpdated = 0 := by
  refine ⟨fun h => ?_, rfl, rfl⟩
  have h' := congrArg IncomeSnapshot.lastUpdated h
  simp only [getRealTimeIncomeRun, getRealTimeIncome] at h'
  exact absurd h' (by norm_num)

/-! ## C8: the [10, 10000] bounds live in the boundary validator only -/

/-- Orders of the C8 example: one delivered order worth 100. -/
def c8Orders : List Order :=
  [{ orderId := "O1", status := .delivered, deliveryFee := some 100
     createdAt := some 0, deliveredAt := some 0 }]

/-- Income document of the C8 example: nothing withdrawn. -/
def c8Income : IncomeData := defaultIncomeData 0

/-- C8 fails as stated: the core `submitWithdrawal` does *not* re-validate
the [10, 10000] bounds — called directly with 9.99 and sufficient balance it
raises no error and appends a pending withdrawal for 9.99. -/
theorem c8_counterexample :
    (submitWithdrawal c8Orders c8Income 7 (999 / 100) "acct").1
        = .ok (mkPendingWithdrawal 7 (999 / 100) "acct")
    ∧ (submitWithdrawal c8Orders c8Income 7 (999 / 100) "acct").2.withdrawals
        = c8Income.withdrawals ++ [mkPendingWithdrawal 7 (999 / 100) "acct"] := by
  have hbal : (getRealTimeIncome c8Orders c8Income 7).availableBalance = 100 := by
    simp only [getRealTimeIncome, c8Orders, c8Income, defaultIncomeData, totalEarningsOf,
      deliveredOrders, Order.fee, round2_eq, List.filter, List.map]
    norm_num
  have hok : submitWithdrawal c8Orders c8Income 7 (999 / 100) "acct"
      = (.ok (mkPendingWithdrawal 7 (999 / 100) "acct"),
         { c8Income with
           withdrawals := c8Income.withdrawals ++ [mkPendingWithdrawal 7 (999 / 100) "acct"]
           lastUpdated := 7 }) := by
    simp only [submitWithdrawal]
    rw [if_neg (by norm_num), if_neg (by rw [hbal]; norm_num)]
  rw [hok]
  exact ⟨rfl, rfl⟩

/-- C8 (amended): amounts outside [10, 10000] are rejected by the boundary
validator before any withdrawal is created — `submitWithdrawal(9.99)` fails
its `Amount too low` check and `submitWithdrawal(10000.01)` its
`Amount too high` check — while the core re-validates only positivity (and
balance), not the [10, 10000] bounds. -/
theorem c8_bounds_boundary :
    validateWithdrawalRequest (some (999 / 100)) = .error .amountTooLow
    ∧ validateWithdrawalRequest (some (1000001 / 100)) = .error .amountTooHigh
    ∧ submitWithdrawal c8Orders c8Income 7 0 "acct" = (.error .invalidAmount, c8Income) := by
  refine ⟨?_, ?_, ?_⟩
  · have hdec : hasAtMost2Decimals (999 / 100) = true := by
      rw [hasAtMost2Decimals, show (999 / 100 * 100 : ℚ) = 999 by norm_num]
      rfl
    simp only [validateWithdrawalRequest]
    rw [if_neg (by norm_num), if_neg (by rw [hdec]; simp), if_pos (by norm_num)]
  · have hdec : hasAtMost2Decimals (1000001 / 100) = true := by
      rw [hasAtMost2Decimals, show (1000001 / 100 * 100 : ℚ) = 1000001 by norm_num]
      rfl
    simp only [validateWithdrawalRequest]
    rw [if_neg (by norm_num), if_neg (by rw [hdec]; simp), if_neg (by norm_num),
      if_pos (by norm_num)]
  · simp only [submitWithdrawal]
    rw [if_pos (by norm_num)]

/-! ## C9: `getAllOrders` swallows storage errors -/

/-- C9 fails as stated: on an unreadable backing store the spec's `listAll`
propagates a storage error, but the code's `getAllOrders` returns the empty
sequence normally (`DataStore.read` catches the error and returns the
default). -/
theorem c9_counterexample :
    specListAll .corrupt = .error .unreadable
    ∧ getAllOrders .corrupt = [] :=
  ⟨rfl, rfl⟩

/-- C9 (amended): `getAllOrders` returns every order in the collection's
insertion order when the backing document is readable, and the empty
sequence both when the backing store is missing *and* when it is
unreadable — a storage failure is caught inside `DataStore.read` and never
propagated to the caller. -/
theorem c9_listAll (file : BackingFile OrdersDoc) :
    (∀ doc, file = .present doc → getAllOrders file = doc.orders)
    ∧ (file = .missing ∨ file = .corrupt → getAllOrders file = []) := by
  constructor
  · intro doc h
    subst h
    rfl
  · intro h
    rcases h with h | h <;> subst h <;> rfl

/-- Orders document of the C9 witness. -/
def c9Doc : OrdersDoc :=
  { orders :=
      [{ orderId := "A", status := .assigned, deliveryFee := none
         createdAt := some 5, deliveredAt := none },
       { orderId := "B", status := .delivered, deliveryFee := some 3
         createdAt := some 1, deliveredAt := some 2 }] }

theorem c9_listAll_witness :
    getAllOrders (.present c9Doc) = c9Doc.orders
    ∧ getAllOrders .corrupt = [] :=
  ⟨(c9_listAll (.present c9Doc)).1 c9Doc rfl, (c9_listAll .corrupt).2 (Or.inr rfl)⟩

/-! ## C10: `getRecentOrders` durably reorders the shared cached array -/

/-- Store of the C10 example: two orders in insertion order oldest-first,
not yet cached. -/
def c10State : StoreState :=
  { file := .present
      { orders :=
          [{ orderId := "OLD", status := .assigned, deliveryFee := none
             createdAt := some 0, deliveredAt := none },
           { orderId := "NEW", status := .assigned, deliveryFee := none
             createdAt := some 100, deliveredAt := none }] }
    cache := none }

/-- C10: `getRecentOrders` sorts the shared cached array in place, so every
subsequent `getAllOrders` observes a permutation of the original collection
sorted descending by `createdAt` — and on a concrete store the observed
order genuinely differs from the insertion order. -/
theorem c10_getRecentOrders_reorders :
    (∀ (s : StoreState) (limit : Nat),
      ((getAllOrdersS ((getRecentOrders s limit).2)).1).Perm ((getAllOrdersS s).1)
      ∧ List.Sorted recentLE ((getAllOrdersS ((getRecentOrders s limit).2)).1))
    ∧ (getAllOrdersS ((getRecentOrders c10State 10).2)).1 ≠ (getAllOrdersS c10State).1 := by
  constructor
  · intro s limit
    obtain ⟨file, cache⟩ := s
    cases cache with
    | some doc =>
      constructor
      · exact List.perm_insertionSort recentLE doc.orders
      · exact List.sorted_insertionSort recentLE doc.orders
    | none =>
      cases file with
      | present doc =>
        constructor
        · exact List.perm_insertionSort recentLE doc.orders
        · exact List.sorted_insertionSort recentLE doc.orders
      | missing => exact ⟨List.Perm.refl _, List.sorted_nil⟩
      | corrupt => exact ⟨List.Perm.refl _, List.sorted_nil⟩
  · decide

end Rider
